import Mathlib

/-!
Shallow embedding of the decoder layer of the `rodio` fork under
verification (files `src/decoder/mod.rs`, `vorbis.rs`, `mp3.rs`,
`symphonia_decoder.rs`, `read_seek_source.rs`).

Third-party engines (lewton, symphonia) are opaque to the repository; their
responses for a given byte stream are recorded as fields of the stream
model `Rdr`.  Rust code that calls `.unwrap()` on a fallible engine result
is modelled with the explicit `POut.panic` outcome.  Machine integers are
modelled as `Nat` / `Int`; sample values (`i16`) as `Int`; `Duration` as a
`Nat` count of nanoseconds.
-/

namespace Rodio

/-- Outcome of Rust code that may panic (an `unwrap` / out-of-bounds index
on a failing value): either a value or a panic. -/
inductive POut (α : Type) where
  | ok (a : α)
  | panic
  deriving DecidableEq

/-- One future result of `read_dec_packet_itl` on a lewton ogg reader:
`Ok(Some data)` (a decoded packet) or `Err(_)` (a corrupt packet).  The
end-of-stream answer `Ok(None)` is modelled by exhaustion of the list of
these results. -/
inductive PacketRes where
  | ok (data : List Int)
  | err
  deriving DecidableEq

/-- One future result of `format.next_packet()` on a symphonia reader:
either a fetched compressed packet carrying its decode outcome
(`none` = `decoder.decode` returns `Err`), or a container-level fetch
error.  End of stream is a fetch error in symphonia and is modelled by
exhaustion of the list. -/
inductive MpEvent where
  | pkt (decoded : Option (List Int))
  | fetchErr
  deriving DecidableEq

/-- Model of one owned seekable byte stream (`R: Read + Seek`) together
with the responses every third-party engine gives on its content.  The
content-derived fields are immutable; only `pos` changes as the handle is
read or seeked.  `wav*` and `flac*` fields back the spec-modelled
constructors for `wav.rs` / `flac.rs`, which `mod.rs` references but which
are absent from `src/`. -/
structure Rdr where
  pos : Nat := 0
  /-- io::Seek on the raw handle succeeds (in-memory and file readers). -/
  ioSeekOk : Bool := true
  wavAccepts : Bool := false
  wavSamples : List Int := []
  wavChannels : Nat := 1
  wavSampleRate : Nat := 44100
  wavTotalDuration : Option Nat := none
  flacAccepts : Bool := false
  flacSamples : List Int := []
  flacChannels : Nat := 1
  flacSampleRate : Nat := 44100
  flacTotalDuration : Option Nat := none
  /-- `ogg_metadata::read_format` succeeds on this content. -/
  oggFormat : Bool := false
  /-- bytes the `read_format` probe advances the handle by before `is_vorbis` rewinds. -/
  oggFormatConsumed : Nat := 0
  /-- `SeekableOggStreamReader::new` / `from_ogg_reader` succeed (`oggReaderOk` at
  first construction, `reopenOk` after a loop rewind). -/
  oggReaderOk : Bool := true
  reopenOk : Bool := true
  /-- the decoded vorbis packet sequence of this content, from the start. -/
  oggPackets : List PacketRes := []
  /-- `ident_hdr().audio_channels`. -/
  audioChannels : Nat := 2
  /-- `ident_hdr().audio_sample_rate`. -/
  audioSampleRate : Nat := 44100
  /-- `seek_bytes(SeekFrom::Start(0))` on the ogg reader succeeds. -/
  seekBytesZeroOk : Bool := true
  /-- `seek_absgp` on the seekable ogg reader succeeds. -/
  seekAbsgpOk : Bool := true
  /-- `symphonia::default::get_probe().format(..)` recognizes the container. -/
  symProbeOk : Bool := false
  /-- `probed.format.default_stream()` is `Some`. -/
  symDefaultStreamOk : Bool := true
  /-- `get_codecs().make(..)` finds a codec. -/
  symMakeOk : Bool := true
  /-- `codec_params.sample_rate` of the default stream. -/
  symSampleRate : Nat := 44100
  /-- channel count of the first decoded symphonia buffer (`spec.channels.count()`). -/
  mpChannels : Nat := 2
  /-- the packet / decode event sequence the symphonia format reader yields
  from the start of the stream (also what a replay after a seek-to-zero yields). -/
  mpEvents : List MpEvent := []
  /-- `format.seek(SeekTo::Time ..)` to time zero succeeds. -/
  symSeekTimeOk : Bool := true
  deriving DecidableEq

/-! ## Ogg/Vorbis backend adapter (`src/decoder/vorbis.rs`) -/

/-- The lewton ogg stream reader: the underlying handle's content plus the
packets not yet read. -/
structure OggReader where
  src : Rdr
  remaining : List PacketRes
  deriving DecidableEq

/-- Constructing a reader over a stream positioned at the content start:
models both `SeekableOggStreamReader::new` (vorbis.rs:28) and
`OggStreamReader::from_ogg_reader` after a rewind (mod.rs:363), on their
success paths. -/
def mkOggReader (data : Rdr) : OggReader :=
  { src := data, remaining := data.oggPackets }

/-- `read_dec_packet_itl()`: `(none, _)` = `Err(_)`, `(some none, _)` =
`Ok(None)` (end of stream), `(some (some d), _)` = `Ok(Some d)`. -/
def readDecPacketItl (r : OggReader) : Option (Option (List Int)) × OggReader :=
  match r.remaining with
  | [] => (some none, r)
  | PacketRes.ok d :: rest => (some (some d), { r with remaining := rest })
  | PacketRes.err :: rest => (none, { r with remaining := rest })

/-- `VorbisDecoder` (vorbis.rs:10-16): the stream reader plus the staging
iterator `current_data` (`vec::IntoIter<i16>`, modelled as the list of not
yet consumed samples). -/
structure VorbisState where
  stream_reader : OggReader
  current_data : List Int
  deriving DecidableEq

/-- `VorbisDecoder::from_stream_reader` (vorbis.rs:31-47): read one packet
(an error or end gives an empty vec), then append the second packet because
the first decoded packet is always empty by vorbis-in-ogg convention. -/
def fromStreamReader (sr : OggReader) : VorbisState :=
  let step1 := readDecPacketItl sr
  let data1 := match step1.1 with
    | some (some d) => d
    | _ => []
  let step2 := readDecPacketItl step1.2
  let data2 := match step2.1 with
    | some (some d) => data1 ++ d
    | _ => data1
  { stream_reader := step2.2, current_data := data2 }

/-- The loop body of `VorbisDecoder::get_next` (vorbis.rs:52-71), recursing
over the remaining packet results: an `Err` from `read_dec_packet_itl` is
`.unwrap()`ed (panic); `Ok(None)` breaks leaving `current_data` as the
exhausted iterator; a nonempty decoded packet becomes the new
`current_data`; an empty one is skipped. -/
def getNextGo (src : Rdr) (cur : List Int) : List PacketRes → POut VorbisState
  | [] => POut.ok { stream_reader := { src := src, remaining := [] }, current_data := cur }
  | PacketRes.err :: _ => POut.panic
  | PacketRes.ok d :: rest =>
      if 0 < d.length then
        POut.ok { stream_reader := { src := src, remaining := rest }, current_data := d }
      else getNextGo src cur rest

/-- `VorbisDecoder::get_next` (vorbis.rs:52-71). -/
def getNext (v : VorbisState) : POut VorbisState :=
  getNextGo v.stream_reader.src v.current_data v.stream_reader.remaining

/-- `<VorbisDecoder as Iterator>::next` (vorbis.rs:116-126): serve from
`current_data`; once it empties, eagerly refill via `get_next`; when the
iterator was already empty, refill and take the head of the new data. -/
def vorbisNext (v : VorbisState) : POut (Option Int × VorbisState) :=
  match v.current_data with
  | sample :: rest =>
      if rest.length = 0 then
        match getNext { v with current_data := rest } with
        | POut.panic => POut.panic
        | POut.ok v' => POut.ok (some sample, v')
      else POut.ok (some sample, { v with current_data := rest })
  | [] =>
      match getNext v with
      | POut.panic => POut.panic
      | POut.ok v' => POut.ok (v'.current_data.head?, { v' with current_data := v'.current_data.tail })

/-- `n` successive pulls on a plain vorbis decoder, collecting the
returned options. -/
def vorbisPulls (v : VorbisState) : Nat → POut (List (Option Int) × VorbisState)
  | 0 => POut.ok ([], v)
  | n + 1 =>
      match vorbisNext v with
      | POut.panic => POut.panic
      | POut.ok (o, v') =>
          match vorbisPulls v' n with
          | POut.panic => POut.panic
          | POut.ok (os, v'') => POut.ok (o :: os, v'')

/-- The observable outcome of the first pull on a decoder: the returned
option, or a panic. -/
def vorbisFirst (v : VorbisState) : POut (Option Int) :=
  match vorbisNext v with
  | POut.panic => POut.panic
  | POut.ok (o, _) => POut.ok o

/-- `ogg_metadata::read_format(&mut data)`: reports whether the content is
ogg and advances the read position. -/
def oggReadFormat (data : Rdr) : Bool × Rdr :=
  (data.oggFormat, { data with pos := data.pos + data.oggFormatConsumed })

/-- `is_vorbis` (vorbis.rs:135-148): remember the position, probe the
format, and seek back to the remembered position on both outcomes.  The
three `seek(..).unwrap()` calls panic if seeking the raw handle fails. -/
def isVorbis (data : Rdr) : POut (Bool × Rdr) :=
  if data.ioSeekOk = false then POut.panic
  else
    let stream_pos := data.pos
    let r := oggReadFormat data
    if r.1 = false then POut.ok (false, { r.2 with pos := stream_pos })
    else POut.ok (true, { r.2 with pos := stream_pos })

/-- `VorbisDecoder::new` (vorbis.rs:23-30): reject (returning the handle)
when `is_vorbis` is false; otherwise `SeekableOggStreamReader::new(data)`
is `.unwrap()`ed and the decoder is primed by `from_stream_reader`. -/
def vorbisNew (data : Rdr) : POut (Except Rdr VorbisState) :=
  match isVorbis data with
  | POut.panic => POut.panic
  | POut.ok (false, data) => POut.ok (Except.error data)
  | POut.ok (true, data) =>
      if data.oggReaderOk = false then POut.panic
      else POut.ok (Except.ok (fromStreamReader (mkOggReader data)))

/-- A vorbis decoder freshly constructed over the content of `data` from
position zero. -/
def freshVorbis (data : Rdr) : VorbisState :=
  fromStreamReader (mkOggReader data)

/-- `VorbisDecoder::sample_rate` (vorbis.rs:89-91). -/
def vorbisSampleRate (v : VorbisState) : Nat :=
  v.stream_reader.src.audioSampleRate

/-- Nanoseconds per second (`Duration` is modelled as a nanosecond count). -/
def NANOS_PER_SEC : Nat := 1000000000

/-- `Duration::as_secs()`: whole seconds, truncating the fraction. -/
def durAsSecs (d : Nat) : Nat := d / NANOS_PER_SEC

/-- `SeekableOggStreamReader::seek_absgp`: position-based seek to an
absolute granule position; success or failure per the stream model (the
engine-internal repositioning of the packet cursor is not modelled). -/
def seekAbsgp (r : OggReader) (absgp : Nat) : Except Unit Unit :=
  if r.src.seekAbsgpOk then Except.ok () else Except.error ()

/-- `VorbisDecoder::seek` (vorbis.rs:98-106): request
`time.as_secs() * sample_rate` as granule position; `Ok(())` maps to
`Ok(time)` (the requested duration, unchanged) and an error to `Err(())`. -/
def vorbisSeek (v : VorbisState) (time : Nat) : Except Unit Nat :=
  match seekAbsgp v.stream_reader (durAsSecs time * vorbisSampleRate v) with
  | Except.ok _ => Except.ok time
  | Except.error _ => Except.error ()

/-- Modelled from the spec (glossary and section 4.3): the duration that an
absolute granule position denotes at a given sample rate, in nanoseconds —
the "actual achieved duration" a granule-position seek can at best attain. -/
def granuleNanos (absgp rate : Nat) : Nat := absgp * NANOS_PER_SEC / rate

/-! ## Symphonia-backed adapters (`src/decoder/mp3.rs`,
`src/decoder/symphonia_decoder.rs`) -/

/-- The symphonia format reader: the handle's content plus the packet
events not yet fetched. -/
structure Mp3Format where
  src : Rdr
  remaining : List MpEvent
  deriving DecidableEq

/-- `format.next_packet()` together with the subsequent `decoder.decode`
outcome of the fetched packet: `(none, _)` = fetch `Err(_)` (including end
of stream), `(some none, _)` = packet fetched but `decode` returns
`Err(_)`, `(some (some d), _)` = packet fetched and decoded to samples
`d`. -/
def mpNextPacket (f : Mp3Format) : Option (Option (List Int)) × Mp3Format :=
  match f.remaining with
  | [] => (none, f)
  | MpEvent.fetchErr :: rest => (none, { f with remaining := rest })
  | MpEvent.pkt d :: rest => (some d, { f with remaining := rest })

/-- `Mp3Decoder` (mp3.rs:20-27): the probed format reader, the staging
`SampleBuffer<i16>` with its cursor `current_frame_offset`, and the fixed
channel count.  (The boxed codec instance and the raw `current_frame`
packet carry no observable state of their own and are not modelled.) -/
structure Mp3State where
  probed : Mp3Format
  buffer : List Int
  current_frame_offset : Nat
  channels : Nat
  deriving DecidableEq

/-- `Mp3Decoder::new` (mp3.rs:32-69): `default_stream().unwrap()`,
`get_codecs().make(..).unwrap()`, `next_packet().unwrap()` and
`decode(..).unwrap()` all panic on failure; on success the first decoded
packet is staged with the cursor at zero.  The `Err` side of the returned
`Result<Self, ()>` is never constructed by the body. -/
def mp3New (probed : Mp3Format) : POut (Except Unit Mp3State) :=
  if probed.src.symDefaultStreamOk = false then POut.panic
  else if probed.src.symMakeOk = false then POut.panic
  else
    match mpNextPacket probed with
    | (none, _) => POut.panic
    | (some none, _) => POut.panic
    | (some (some d), probed) =>
        POut.ok (Except.ok
          { probed := probed, buffer := d, current_frame_offset := 0,
            channels := probed.src.mpChannels })

/-- The tail of `Mp3Decoder::next` (mp3.rs:125-129): index the staging
buffer at the cursor — a panic when the buffer is shorter — and advance
the cursor. -/
def mp3Serve (m : Mp3State) : POut (Option Int × Mp3State) :=
  match m.buffer.get? m.current_frame_offset with
  | none => POut.panic
  | some s => POut.ok (some s, { m with current_frame_offset := m.current_frame_offset + 1 })

/-- `<Mp3Decoder as Iterator>::next` (mp3.rs:107-130): when the cursor has
reached the buffer length, fetch the next packet — a fetch error returns
`None`, while `decode(..).unwrap()` panics on a decode failure — then
serve from the (possibly refilled) buffer. -/
def mp3Next (m : Mp3State) : POut (Option Int × Mp3State) :=
  if m.current_frame_offset = m.buffer.length then
    match mpNextPacket m.probed with
    | (none, f) => POut.ok (none, { m with probed := f })
    | (some none, _) => POut.panic
    | (some (some d), f) =>
        mp3Serve { probed := f, buffer := d, current_frame_offset := 0, channels := m.channels }
  else mp3Serve m

/-- `SymphoniaDecoder` (symphonia_decoder.rs:15-22): same observable state
as `Mp3State`, over its own format reader. -/
structure SymState where
  format : Mp3Format
  buffer : List Int
  current_frame_offset : Nat
  channels : Nat
  deriving DecidableEq

/-- The refill loop of `SymphoniaDecoder::next`
(symphonia_decoder.rs:122-143), recursing over the remaining events: a
fetch error (or end of stream) returns `None`; a packet whose decode fails
is skipped (`continue`); a decoded packet breaks out with the new
buffer. -/
def symFetchGo (src : Rdr) : List MpEvent → Option (List Int) × Mp3Format
  | [] => (none, { src := src, remaining := [] })
  | MpEvent.fetchErr :: rest => (none, { src := src, remaining := rest })
  | MpEvent.pkt none :: rest => symFetchGo src rest
  | MpEvent.pkt (some d) :: rest => (some d, { src := src, remaining := rest })

/-- The refill loop of `SymphoniaDecoder::next` applied to a format
reader. -/
def symFetchLoop (f : Mp3Format) : Option (List Int) × Mp3Format :=
  symFetchGo f.src f.remaining

/-- The tail of `SymphoniaDecoder::next` (symphonia_decoder.rs:147-151):
index the staging buffer at the cursor and advance it. -/
def symServe (s : SymState) : POut (Option Int × SymState) :=
  match s.buffer.get? s.current_frame_offset with
  | none => POut.panic
  | some x => POut.ok (some x, { s with current_frame_offset := s.current_frame_offset + 1 })

/-- `<SymphoniaDecoder as Iterator>::next` (symphonia_decoder.rs:120-152):
when the cursor has reached the buffer length, run the refill loop — a
container-level fetch failure returns `None`, a failed decode is skipped —
then serve from the buffer with the cursor reset. -/
def symNext (s : SymState) : POut (Option Int × SymState) :=
  if s.current_frame_offset = s.buffer.length then
    match symFetchLoop s.format with
    | (none, f) => POut.ok (none, { s with format := f })
    | (some d, f) =>
        symServe { format := f, buffer := d, current_frame_offset := 0, channels := s.channels }
  else symServe s

/-! ## Spec-modelled WAV and FLAC adapters

`mod.rs` dispatches to `wav::WavDecoder` and `flac::FlacDecoder`, but
`wav.rs` and `flac.rs` are not under `src/`. -/

/-- Modelled from the spec: `wav.rs` is missing from `src/`.  Per spec
sections 2-4.1 a backend adapter owns the stream handle plus decoded
sample state with fixed channel count and sample rate. -/
structure WavState where
  inner : Rdr
  samples : List Int
  channels : Nat
  sampleRate : Nat
  totalDuration : Option Nat
  deriving DecidableEq

/-- Modelled from the spec: `WavDecoder::new` (missing `wav.rs`).  Per
spec section 4.1 the constructor either accepts the stream (eagerly
staging its decoded samples) or fails and returns the handle unchanged. -/
def wavNew (data : Rdr) : Except Rdr WavState :=
  if data.wavAccepts then
    Except.ok
      { inner := data, samples := data.wavSamples, channels := data.wavChannels,
        sampleRate := data.wavSampleRate, totalDuration := data.wavTotalDuration }
  else Except.error data

/-- Modelled from the spec: `WavDecoder::next` (missing `wav.rs`).  Per
spec sections 6-7 a per-sample pull returns the next staged sample or
`None` at exhaustion and never fails. -/
def wavNext (w : WavState) : Option Int × WavState :=
  match w.samples with
  | [] => (none, w)
  | s :: rest => (some s, { w with samples := rest })

/-- Modelled from the spec: `flac.rs` is missing from `src/`; same
adapter shape as `WavState`. -/
structure FlacState where
  inner : Rdr
  samples : List Int
  channels : Nat
  sampleRate : Nat
  totalDuration : Option Nat
  deriving DecidableEq

/-- Modelled from the spec: `FlacDecoder::new` (missing `flac.rs`);
accepts or returns the handle unchanged, as `wavNew`. -/
def flacNew (data : Rdr) : Except Rdr FlacState :=
  if data.flacAccepts then
    Except.ok
      { inner := data, samples := data.flacSamples, channels := data.flacChannels,
        sampleRate := data.flacSampleRate, totalDuration := data.flacTotalDuration }
  else Except.error data

/-- Modelled from the spec: `FlacDecoder::next` (missing `flac.rs`). -/
def flacNext (w : FlacState) : Option Int × FlacState :=
  match w.samples with
  | [] => (none, w)
  | s :: rest => (some s, { w with samples := rest })

/-! ## Unified decoder and looping decoder (`src/decoder/mod.rs`) -/

/-- `DecoderImpl` (mod.rs:40-53): the closed variant set over the backend
adapters, plus the transient `None` placeholder. -/
inductive DecoderImpl where
  | wav (source : WavState)
  | vorbis (source : VorbisState)
  | flac (source : FlacState)
  | mp3 (source : Mp3State)
  | none
  deriving DecidableEq

/-- `DecoderError` (mod.rs:469-472). -/
inductive DecoderError where
  | unrecognizedFormat
  deriving DecidableEq

/-- `Decoder::new` (mod.rs:114-161): try `wav`, `flac`, `vorbis` in order,
each rejection handing the stream to the next candidate; then build a
`MediaSourceStream` over the handle and call
`symphonia::default::get_probe().format(..).unwrap()` — a panic when the
container is not recognized — and finally `Mp3Decoder::new(probed)`, whose
`Err` arm alone reaches `Err(DecoderError::UnrecognizedFormat)`. -/
def decoderNew (data : Rdr) : POut (Except DecoderError DecoderImpl) :=
  match wavNew data with
  | Except.ok decoder => POut.ok (Except.ok (DecoderImpl.wav decoder))
  | Except.error data =>
  match flacNew data with
  | Except.ok decoder => POut.ok (Except.ok (DecoderImpl.flac decoder))
  | Except.error data =>
  match vorbisNew data with
  | POut.panic => POut.panic
  | POut.ok (Except.ok decoder) => POut.ok (Except.ok (DecoderImpl.vorbis decoder))
  | POut.ok (Except.error data) =>
  if data.symProbeOk = false then POut.panic
  else
    match mp3New { src := data, remaining := data.mpEvents } with
    | POut.panic => POut.panic
    | POut.ok (Except.ok decoder) => POut.ok (Except.ok (DecoderImpl.mp3 decoder))
    | POut.ok (Except.error _) => POut.ok (Except.error DecoderError.unrecognizedFormat)

/-- `<Decoder as Iterator>::next` (mod.rs:231-243) and the first match of
`<LoopedDecoder as Iterator>::next` (mod.rs:334-344): dispatch the pull to
the active variant; the `None` variant yields nothing. -/
def decoderImplNext : DecoderImpl → POut (Option Int × DecoderImpl)
  | DecoderImpl.wav source =>
      match wavNext source with
      | (o, source) => POut.ok (o, DecoderImpl.wav source)
  | DecoderImpl.vorbis source =>
      match vorbisNext source with
      | POut.panic => POut.panic
      | POut.ok (o, source) => POut.ok (o, DecoderImpl.vorbis source)
  | DecoderImpl.flac source =>
      match flacNext source with
      | (o, source) => POut.ok (o, DecoderImpl.flac source)
  | DecoderImpl.mp3 source =>
      match mp3Next source with
      | POut.panic => POut.panic
      | POut.ok (o, source) => POut.ok (o, DecoderImpl.mp3 source)
  | DecoderImpl.none => POut.ok (none, DecoderImpl.none)

/-- `<LoopedDecoder as Iterator>::next` (mod.rs:333-394): pull from the
active variant and return any sample; on exhaustion, swap the state for
the `None` placeholder, recover the stream handle from the dead adapter,
rewind it to position zero and rebuild an adapter of the same kind — every
`.ok()?` failure early-returns `None` leaving the `None` state installed —
then pull one sample from the rebuilt adapter and install it.  The `mp3`
rebuild calls `Mp3Decoder::new`, which panics rather than returning `Err`
when an engine call fails (`Time::from_ss(0, 0).unwrap()` itself always
succeeds). -/
def loopedNext (d : DecoderImpl) : POut (Option Int × DecoderImpl) :=
  match decoderImplNext d with
  | POut.panic => POut.panic
  | POut.ok (some sample, d') => POut.ok (some sample, d')
  | POut.ok (none, d') =>
      match d' with
      | DecoderImpl.wav source =>
          let reader := source.inner
          if reader.ioSeekOk = false then POut.ok (none, DecoderImpl.none)
          else
            match wavNew { reader with pos := 0 } with
            | Except.error _ => POut.ok (none, DecoderImpl.none)
            | Except.ok source =>
                match wavNext source with
                | (sample, source) => POut.ok (sample, DecoderImpl.wav source)
      | DecoderImpl.vorbis source =>
          let reader := source.stream_reader
          if reader.src.seekBytesZeroOk = false then POut.ok (none, DecoderImpl.none)
          else if reader.src.reopenOk = false then POut.ok (none, DecoderImpl.none)
          else
            match vorbisNext (fromStreamReader (mkOggReader reader.src)) with
            | POut.panic => POut.panic
            | POut.ok (sample, source) => POut.ok (sample, DecoderImpl.vorbis source)
      | DecoderImpl.flac source =>
          let reader := source.inner
          if reader.ioSeekOk = false then POut.ok (none, DecoderImpl.none)
          else
            match flacNew { reader with pos := 0 } with
            | Except.error _ => POut.ok (none, DecoderImpl.none)
            | Except.ok source =>
                match flacNext source with
                | (sample, source) => POut.ok (sample, DecoderImpl.flac source)
      | DecoderImpl.mp3 source =>
          let reader := source.probed
          if reader.src.symSeekTimeOk = false then POut.ok (none, DecoderImpl.none)
          else
            match mp3New { src := reader.src, remaining := reader.src.mpEvents } with
            | POut.panic => POut.panic
            | POut.ok (Except.error _) => POut.ok (none, DecoderImpl.none)
            | POut.ok (Except.ok source) =>
                match mp3Next source with
                | POut.panic => POut.panic
                | POut.ok (sample, source) => POut.ok (sample, DecoderImpl.mp3 source)
      | DecoderImpl.none => POut.ok (none, DecoderImpl.none)

/-- `n` successive pulls on a looping decoder, collecting the returned
options. -/
def loopedPulls (d : DecoderImpl) : Nat → POut (List (Option Int) × DecoderImpl)
  | 0 => POut.ok ([], d)
  | n + 1 =>
      match loopedNext d with
      | POut.panic => POut.panic
      | POut.ok (o, d') =>
          match loopedPulls d' n with
          | POut.panic => POut.panic
          | POut.ok (os, d'') => POut.ok (o :: os, d'')

/-- `<Decoder as Source>::current_frame_len` (mod.rs:266-278).  The mp3
arm reports the full staging buffer length (mp3.rs:78), not the unconsumed
remainder. -/
def decoderCurrentFrameLen : DecoderImpl → Option Nat
  | DecoderImpl.wav s => some s.samples.length
  | DecoderImpl.vorbis s => some s.current_data.length
  | DecoderImpl.flac s => some s.samples.length
  | DecoderImpl.mp3 s => some s.buffer.length
  | DecoderImpl.none => some 0

/-- `<Decoder as Source>::channels` (mod.rs:281-293). -/
def decoderChannels : DecoderImpl → Nat
  | DecoderImpl.wav s => s.channels
  | DecoderImpl.vorbis s => s.stream_reader.src.audioChannels
  | DecoderImpl.flac s => s.channels
  | DecoderImpl.mp3 s => s.channels
  | DecoderImpl.none => 0

/-- `<Decoder as Source>::sample_rate` (mod.rs:296-308).  The mp3 arm
reads `codec_params.sample_rate` of the default stream (mp3.rs:87-95),
present after a successful construction. -/
def decoderSampleRate : DecoderImpl → Nat
  | DecoderImpl.wav s => s.sampleRate
  | DecoderImpl.vorbis s => s.stream_reader.src.audioSampleRate
  | DecoderImpl.flac s => s.sampleRate
  | DecoderImpl.mp3 s => s.probed.src.symSampleRate
  | DecoderImpl.none => 1

/-- `<Decoder as Source>::total_duration` (mod.rs:311-323): the vorbis and
mp3 adapters report `None` (vorbis.rs:94-96, mp3.rs:98-100); the `None`
variant reports `Some(Duration::default())`, i.e. zero nanoseconds. -/
def decoderTotalDuration : DecoderImpl → Option Nat
  | DecoderImpl.wav s => s.totalDuration
  | DecoderImpl.vorbis _ => none
  | DecoderImpl.flac s => s.totalDuration
  | DecoderImpl.mp3 _ => none
  | DecoderImpl.none => some 0

/-- `<LoopedDecoder as Source>::current_frame_len` (mod.rs:417-429): same
dispatch as the plain decoder. -/
def loopedCurrentFrameLen : DecoderImpl → Option Nat
  | DecoderImpl.wav s => some s.samples.length
  | DecoderImpl.vorbis s => some s.current_data.length
  | DecoderImpl.flac s => some s.samples.length
  | DecoderImpl.mp3 s => some s.buffer.length
  | DecoderImpl.none => some 0

/-- `<LoopedDecoder as Source>::channels` (mod.rs:432-444). -/
def loopedChannels : DecoderImpl → Nat
  | DecoderImpl.wav s => s.channels
  | DecoderImpl.vorbis s => s.stream_reader.src.audioChannels
  | DecoderImpl.flac s => s.channels
  | DecoderImpl.mp3 s => s.channels
  | DecoderImpl.none => 0

/-- `<LoopedDecoder as Source>::sample_rate` (mod.rs:447-459). -/
def loopedSampleRate : DecoderImpl → Nat
  | DecoderImpl.wav s => s.sampleRate
  | DecoderImpl.vorbis s => s.stream_reader.src.audioSampleRate
  | DecoderImpl.flac s => s.sampleRate
  | DecoderImpl.mp3 s => s.probed.src.symSampleRate
  | DecoderImpl.none => 1

/-- `<LoopedDecoder as Source>::total_duration` (mod.rs:462-464): always
unknown. -/
def loopedTotalDuration : DecoderImpl → Option Nat :=
  fun _ => none

/-! ## Concrete instances used by the claims -/

/-- A 16-byte garbage buffer: the wav and flac constructors reject it, it
is not an ogg stream, and the symphonia probe does not recognize any
container in it. -/
def garbageRdr : Rdr := {}

/-- An ogg/vorbis stream with a corrupt third packet: the first decoded
packet is empty (the vorbis-in-ogg convention), the second holds one
sample, the third fails to decode. -/
def rdrC2 : Rdr :=
  { oggFormat := true, oggPackets := [PacketRes.ok [], PacketRes.ok [3], PacketRes.err] }

/-- An mp3 adapter whose staging buffer is consumed and whose next fetched
packet fails to decode. -/
def mp3C2 : Mp3State :=
  { probed := { src := {}, remaining := [MpEvent.pkt Option.none] },
    buffer := [1], current_frame_offset := 1, channels := 2 }

/-- A stream at read position 5 whose format probe consumes 3 bytes and
which every candidate rejects. -/
def rdrC3 : Rdr := { pos := 5, oggFormatConsumed := 3 }

/-- A vorbis adapter over a 2 Hz stream that accepts granule seeks. -/
def vC8 : VorbisState := freshVorbis { oggFormat := true, audioSampleRate := 2 }

/-- A symphonia adapter with spent buffer whose next unit fails to decode
and whose following unit decodes to `[4]`. -/
def symC5 : SymState :=
  { format := { src := {}, remaining := [MpEvent.pkt Option.none, MpEvent.pkt (some [4])] },
    buffer := [9], current_frame_offset := 1, channels := 2 }

/-- A symphonia adapter with spent buffer at end of stream. -/
def symC5end : SymState :=
  { format := { src := {}, remaining := [] },
    buffer := [9], current_frame_offset := 1, channels := 2 }

/-- A symphonia adapter with spent buffer whose next fetch fails. -/
def symC5err : SymState :=
  { format := { src := {}, remaining := [MpEvent.fetchErr] },
    buffer := [9], current_frame_offset := 1, channels := 2 }

/-- An mp3 adapter with spent buffer at end of stream. -/
def mp3C5end : Mp3State :=
  { probed := { src := {}, remaining := [] },
    buffer := [9], current_frame_offset := 1, channels := 2 }

/-- An mp3 adapter with spent buffer whose next unit fails to decode. -/
def mp3C5bad : Mp3State :=
  { probed := { src := {}, remaining := [MpEvent.pkt Option.none] },
    buffer := [9], current_frame_offset := 1, channels := 2 }

/-- A vorbis adapter over an empty stream whose rewind fails. -/
def vorbC6 : VorbisState :=
  { stream_reader := { src := { oggFormat := true, seekBytesZeroOk := false }, remaining := [] },
    current_data := [] }

/-- An exhausted mp3 adapter over a stream whose time-based rewind
fails. -/
def mp3C6seek : Mp3State :=
  { probed := { src := { symSeekTimeOk := false }, remaining := [] },
    buffer := [], current_frame_offset := 0, channels := 2 }

/-- An exhausted wav adapter over a stream the wav constructor no longer
accepts. -/
def wavC6 : WavState :=
  { inner := {}, samples := [], channels := 1, sampleRate := 44100, totalDuration := none }

/-- An exhausted flac adapter over a stream the flac constructor no longer
accepts. -/
def flacC6 : FlacState :=
  { inner := {}, samples := [], channels := 1, sampleRate := 44100, totalDuration := none }

/-- A stream whose replayed first compressed unit fails to decode (the
re-read after rewinding returns a corrupt unit). -/
def rdrC6 : Rdr := { mpEvents := [MpEvent.pkt Option.none] }

/-- An exhausted mp3 adapter over `rdrC6`. -/
def mp3C6 : Mp3State :=
  { probed := { src := rdrC6, remaining := [] },
    buffer := [], current_frame_offset := 0, channels := 2 }

/-- An empty but well-formed vorbis stream: rewind and reopen succeed, no
packets. -/
def rdrC10 : Rdr := { oggFormat := true, oggPackets := [] }

/-- A valid vorbis stream: empty first packet, second packet `[7, 8]`,
then an empty trailing packet. -/
def rdrC4 : Rdr :=
  { oggFormat := true,
    oggPackets := [PacketRes.ok [], PacketRes.ok [7, 8], PacketRes.ok []] }

/-- A one-sample vorbis stream: empty first packet, one-sample second
packet. -/
def rdrC7w : Rdr :=
  { oggFormat := true, oggPackets := [PacketRes.ok [], PacketRes.ok [5]] }

/-- The state of a decoder over `rdrC7w` after its single sample has been
consumed. -/
def vC7w : VorbisState :=
  { stream_reader := { src := rdrC7w, remaining := [] }, current_data := [] }

/-- A zero-sample vorbis stream whose rewind and reopen succeed. -/
def rdrC7 : Rdr := { oggFormat := true, oggPackets := [] }

/-! ## Helper lemmas -/

/-- `Mp3Decoder::new` never constructs the `Err` side of its result: every
failure path inside it is an `unwrap`. -/
theorem mp3New_ne_err (f : Mp3Format) (e : Unit) :
    mp3New f ≠ POut.ok (Except.error e) := by
  unfold mp3New
  split
  · simp
  · split
    · simp
    · split <;> simp

/-- The refill loop leaves the underlying stream content untouched. -/
theorem getNextGo_src (src : Rdr) (cur : List Int) :
    ∀ (l : List PacketRes) (v' : VorbisState),
      getNextGo src cur l = POut.ok v' → v'.stream_reader.src = src := by
  intro l
  induction l with
  | nil =>
      intro v' h
      simp only [getNextGo] at h
      cases h
      rfl
  | cons p rest ih =>
      intro v' h
      cases p with
      | err => simp [getNextGo] at h
      | ok d =>
          simp only [getNextGo] at h
          split at h
          · cases h; rfl
          · exact ih v' h

/-- On a packet sequence with no decode errors the refill loop cannot
panic. -/
theorem getNextGo_total (src : Rdr) (cur : List Int) :
    ∀ (l : List PacketRes), (∀ q ∈ l, q ≠ PacketRes.err) →
      ∃ v', getNextGo src cur l = POut.ok v' := by
  intro l
  induction l with
  | nil => exact fun _ => ⟨_, rfl⟩
  | cons p rest ih =>
      intro hok
      cases p with
      | err => exact absurd rfl (hok PacketRes.err (List.mem_cons_self _ _))
      | ok d =>
          simp only [getNextGo]
          split
          · exact ⟨_, rfl⟩
          · exact ih fun q hq => hok q (List.mem_cons_of_mem _ hq)

/-- `read_dec_packet_itl` leaves the underlying stream content untouched. -/
theorem readDecPacketItl_src (r : OggReader) : (readDecPacketItl r).2.src = r.src := by
  cases hr : r.remaining with
  | nil => simp [readDecPacketItl, hr]
  | cons p rest => cases p <;> simp [readDecPacketItl, hr]

/-- Priming leaves the underlying stream content untouched. -/
theorem fromStreamReader_src (sr : OggReader) :
    (fromStreamReader sr).stream_reader.src = sr.src := by
  simp [fromStreamReader, readDecPacketItl_src]

/-- A vorbis pull leaves the underlying stream content untouched. -/
theorem vorbisNext_src (v : VorbisState) (o : Option Int) (v' : VorbisState)
    (h : vorbisNext v = POut.ok (o, v')) :
    v'.stream_reader.src = v.stream_reader.src := by
  cases hc : v.current_data with
  | nil =>
      simp only [vorbisNext, hc] at h
      cases hg : getNext v with
      | panic => rw [hg] at h; cases h
      | ok v1 =>
          rw [hg] at h
          cases h
          unfold getNext at hg
          exact getNextGo_src _ _ _ v1 hg
  | cons s rest =>
      simp only [vorbisNext, hc] at h
      split at h
      · cases hg : getNext { v with current_data := rest } with
        | panic => rw [hg] at h; cases h
        | ok v1 =>
            rw [hg] at h
            cases h
            unfold getNext at hg
            exact getNextGo_src _ _ _ _ hg
      · cases h; rfl

/-- A run of vorbis pulls leaves the underlying stream content
untouched. -/
theorem vorbisPulls_src :
    ∀ (n : Nat) (v : VorbisState) (out : List (Option Int)) (v' : VorbisState),
      vorbisPulls v n = POut.ok (out, v') → v'.stream_reader.src = v.stream_reader.src := by
  intro n
  induction n with
  | zero =>
      intro v out v' h
      cases h
      rfl
  | succ n ih =>
      intro v out v' h
      simp only [vorbisPulls] at h
      cases hn : vorbisNext v with
      | panic => rw [hn] at h; cases h
      | ok p =>
          obtain ⟨o, v1⟩ := p
          simp only [hn] at h
          cases hp : vorbisPulls v1 n with
          | panic => simp only [hp] at h; cases h
          | ok q =>
              obtain ⟨os, v2⟩ := q
              simp only [hp] at h
              cases h
              rw [ih v1 os _ hp, vorbisNext_src v o v1 hn]

/-- While the active vorbis adapter keeps producing samples, the looping
decoder takes its fast path and the two evolve identically. -/
theorem looped_agrees_vorbis :
    ∀ (n : Nat) (v : VorbisState) (out : List (Option Int)) (vN : VorbisState),
      vorbisPulls v n = POut.ok (out, vN) →
      (∀ o ∈ out, o ≠ none) →
      loopedPulls (DecoderImpl.vorbis v) n = POut.ok (out, DecoderImpl.vorbis vN) := by
  intro n
  induction n with
  | zero =>
      intro v out vN h _
      cases h
      rfl
  | succ n ih =>
      intro v out vN h hall
      simp only [vorbisPulls] at h
      cases hn : vorbisNext v with
      | panic => rw [hn] at h; cases h
      | ok p =>
          obtain ⟨o, v1⟩ := p
          simp only [hn] at h
          cases hp : vorbisPulls v1 n with
          | panic => simp only [hp] at h; cases h
          | ok q =>
              obtain ⟨os, v2⟩ := q
              simp only [hp] at h
              cases h
              have ho : o ≠ none := hall o (List.mem_cons_self _ _)
              obtain ⟨s, rfl⟩ := Option.ne_none_iff_exists'.mp ho
              have hstep : loopedNext (DecoderImpl.vorbis v)
                  = POut.ok (some s, DecoderImpl.vorbis v1) := by
                unfold loopedNext
                simp [decoderImplNext, hn]
              have hrest := ih v1 os _ hp fun o' h' => hall o' (List.mem_cons_of_mem _ h')
              rw [loopedPulls]
              simp only [hstep, hrest]

/-- Splitting a run of looped pulls at a pull count. -/
theorem loopedPulls_snoc :
    ∀ (n : Nat) (d dN : DecoderImpl) (out : List (Option Int)),
      loopedPulls d n = POut.ok (out, dN) →
      ∀ (o : Option Int) (d' : DecoderImpl), loopedNext dN = POut.ok (o, d') →
        loopedPulls d (n + 1) = POut.ok (out ++ [o], d') := by
  intro n
  induction n with
  | zero =>
      intro d dN out h o d' h2
      cases h
      simp [loopedPulls, h2]
  | succ n ih =>
      intro d dN out h o d' h2
      simp only [loopedPulls] at h
      cases hn : loopedNext d with
      | panic => rw [hn] at h; cases h
      | ok p =>
          obtain ⟨o0, d0⟩ := p
          simp only [hn] at h
          cases hp : loopedPulls d0 n with
          | panic => simp only [hp] at h; cases h
          | ok q =>
              obtain ⟨os, d1⟩ := q
              simp only [hp] at h
              cases h
              have hrest := ih d0 _ os hp o d' h2
              rw [loopedPulls]
              simp only [hn, hrest, List.cons_append]

/-! ## Claims -/

/-- Claim C1: the claim states that when every registered backend rejects
the stream, `Decoder::new` returns `UnrecognizedFormat` and terminates no
other way.  The code instead panics: after wav, flac and vorbis reject,
`get_probe().format(..).unwrap()` (mod.rs:149-151) panics on an
unrecognized container, and `Mp3Decoder::new` never returns `Err`, so the
`Err(DecoderError::UnrecognizedFormat)` line (mod.rs:160) is unreachable
for every stream. -/
theorem c1_unrecognized_format_code_bug :
    decoderNew garbageRdr = POut.panic ∧
    ∀ data : Rdr, decoderNew data = POut.panic ∨
      ∃ d, decoderNew data = POut.ok (Except.ok d) := by
  refine ⟨rfl, ?_⟩
  intro data
  unfold decoderNew
  split
  · exact Or.inr ⟨_, rfl⟩
  · split
    · exact Or.inr ⟨_, rfl⟩
    · split
      · exact Or.inl rfl
      · exact Or.inr ⟨_, rfl⟩
      · split
        · exact Or.inl rfl
        · split
          · exact Or.inl rfl
          · exact Or.inr ⟨_, rfl⟩
          · exact absurd (by assumption) (mp3New_ne_err _ _)

/-- Claim C2: the claim states that a per-sample pull returns a sample or
`None` and never panics on malformed audio data.  The code panics:
`VorbisDecoder::get_next` unwraps `read_dec_packet_itl` (vorbis.rs:58), so
the very first pull over `rdrC2` panics, and `Mp3Decoder::next` unwraps
`decode` (mp3.rs:112), so the pull over `mp3C2` panics. -/
theorem c2_pull_panics_on_malformed :
    vorbisNext (freshVorbis rdrC2) = POut.panic ∧ mp3Next mp3C2 = POut.panic :=
  ⟨rfl, rfl⟩

/-- Claim C9: on the transient `None` variant the metadata accessors of
both `Decoder` and `LoopedDecoder` return the fixed degenerate values:
`channels() = 0`, `sample_rate() = 1`, `current_frame_len() = Some(0)`,
and for the non-looped `Decoder` also
`total_duration() = Some(Duration::default())` (zero). -/
theorem c9_none_variant_metadata :
    decoderChannels DecoderImpl.none = 0 ∧
    decoderSampleRate DecoderImpl.none = 1 ∧
    decoderCurrentFrameLen DecoderImpl.none = some 0 ∧
    decoderTotalDuration DecoderImpl.none = some 0 ∧
    loopedChannels DecoderImpl.none = 0 ∧
    loopedSampleRate DecoderImpl.none = 1 ∧
    loopedCurrentFrameLen DecoderImpl.none = some 0 :=
  ⟨rfl, rfl, rfl, rfl, rfl, rfl, rfl⟩

/-- Claim C3 (amended): every constructor that rejects and hands the
stream on does so with the read position exactly restored — `is_vorbis`
rewinds to the remembered position on both outcomes, and the spec-modelled
wav and flac constructors return the handle unchanged.  (The unrestorable
total-failure half of the original claim is refuted by
`c3_total_failure_no_stream`.) -/
theorem c3_probe_position_restored (data : Rdr) (hio : data.ioSeekOk = true) :
    isVorbis data = POut.ok (data.oggFormat, data) ∧
    (data.oggFormat = false → vorbisNew data = POut.ok (Except.error data)) ∧
    (data.wavAccepts = false → wavNew data = Except.error data) ∧
    (data.flacAccepts = false → flacNew data = Except.error data) := by
  have h1 : isVorbis data = POut.ok (data.oggFormat, data) := by
    obtain ⟨p, io, wa, ws, wc, wr, wd, fa, fs, fc, fr, fd, og, oc, og1, rp, op, ac, ar,
      sb, sa, sp, sd, sm, sr, mc, me, st⟩ := data
    cases io with
    | false => simp at hio
    | true => cases og <;> rfl
  refine ⟨h1, ?_, ?_, ?_⟩
  · intro hf
    unfold vorbisNew
    rw [h1, hf]
  · intro hf
    simp [wavNew, hf]
  · intro hf
    simp [flacNew, hf]

/-- Witness for `c3_probe_position_restored` at `rdrC3`, every hypothesis
discharged. -/
theorem c3_probe_position_restored_witness :
    isVorbis rdrC3 = POut.ok (rdrC3.oggFormat, rdrC3) ∧
    vorbisNew rdrC3 = POut.ok (Except.error rdrC3) ∧
    wavNew rdrC3 = Except.error rdrC3 ∧
    flacNew rdrC3 = Except.error rdrC3 :=
  ⟨(c3_probe_position_restored rdrC3 rfl).1,
    (c3_probe_position_restored rdrC3 rfl).2.1 rfl,
    (c3_probe_position_restored rdrC3 rfl).2.2.1 rfl,
    (c3_probe_position_restored rdrC3 rfl).2.2.2 rfl⟩

/-- Claim C3 counterexample: the claim concludes that after a total
probing failure the original byte stream is fully re-readable from its
original position.  On `rdrC3` every candidate rejects, yet construction
panics inside the symphonia probe after the handle has been consumed into
the `MediaSourceStream`; no outcome of `Decoder::new` ever carries the
handle back (its error side is a bare `DecoderError`), so nothing is left
re-readable. -/
theorem c3_total_failure_no_stream : decoderNew rdrC3 = POut.panic := rfl

/-- Claim C8 (amended): the vorbis seek converts the requested duration to
the absolute granule position `as_secs(t) × sample_rate` (truncating the
subsecond part — visible in the definition of `vorbisSeek`), requests a
position-based seek, returns the originally requested duration `t`
unchanged on success, and maps failure of the underlying call to a seek
error. -/
theorem c8_seek_behavior (v : VorbisState) (t : Nat) :
    (v.stream_reader.src.seekAbsgpOk = true → vorbisSeek v t = Except.ok t) ∧
    (v.stream_reader.src.seekAbsgpOk = false → vorbisSeek v t = Except.error ()) := by
  constructor <;> intro h <;> simp [vorbisSeek, seekAbsgp, h]

/-- Witness for `c8_seek_behavior` at `vC8` and 3 s. -/
theorem c8_seek_behavior_witness :
    vC8.stream_reader.src.seekAbsgpOk = true ∧
    vorbisSeek vC8 3000000000 = Except.ok 3000000000 :=
  ⟨rfl, (c8_seek_behavior vC8 3000000000).1 rfl⟩

/-- Claim C8 counterexample: the claim states that on success the seek
returns the *actual achieved* duration.  Requesting 1.5 s on a 2 Hz
stream, the code requests granule position `as_secs(1.5 s) × 2 = 2`, whose
duration is exactly 1 s — the furthest position the request can achieve —
yet the call returns the untouched 1.5 s. -/
theorem c8_returns_requested_not_achieved :
    vorbisSeek vC8 1500000000 = Except.ok 1500000000 ∧
    granuleNanos (durAsSecs 1500000000 * vorbisSampleRate vC8) (vorbisSampleRate vC8)
      = 1000000000 ∧
    (1500000000 : Nat) ≠ 1000000000 := by
  refine ⟨rfl, by norm_num [granuleNanos, durAsSecs, NANOS_PER_SEC, vorbisSampleRate, vC8,
    freshVorbis, mkOggReader, fromStreamReader, readDecPacketItl], by norm_num⟩

/-- Claim C5 (amended): in `SymphoniaDecoder::next` an exhausted staging
buffer followed by a unit that fails to decode is skipped — the pull
behaves exactly as if that unit were absent — and a container-level fetch
failure (or end of stream) ends the sample sequence with `None`, not an
error.  In `Mp3Decoder::next` — the variant `Decoder::new` actually
dispatches to — a fetch failure likewise yields `None`, but a unit that
fails to decode panics instead of being skipped. -/
theorem c5_symphonia_skip_and_exhaust :
    (∀ (s : SymState) (rest : List MpEvent),
        s.current_frame_offset = s.buffer.length →
        s.format.remaining = MpEvent.pkt Option.none :: rest →
        symNext s = symNext { s with format := { s.format with remaining := rest } }) ∧
    (∀ s : SymState,
        s.current_frame_offset = s.buffer.length →
        s.format.remaining = [] →
        symNext s = POut.ok (Option.none, s)) ∧
    (∀ (s : SymState) (rest : List MpEvent),
        s.current_frame_offset = s.buffer.length →
        s.format.remaining = MpEvent.fetchErr :: rest →
        symNext s = POut.ok (Option.none, { s with format := { s.format with remaining := rest } })) ∧
    (∀ m : Mp3State,
        m.current_frame_offset = m.buffer.length →
        m.probed.remaining = [] →
        mp3Next m = POut.ok (Option.none, m)) ∧
    (∀ (m : Mp3State) (rest : List MpEvent),
        m.current_frame_offset = m.buffer.length →
        m.probed.remaining = MpEvent.pkt Option.none :: rest →
        mp3Next m = POut.panic) := by
  refine ⟨?_, ?_, ?_, ?_, ?_⟩
  · intro s rest h1 h2
    simp [symNext, symFetchLoop, symFetchGo, h1, h2]
  · intro s h1 h2
    simp [symNext, symFetchLoop, symFetchGo, h1, h2]
    rw [← h1, ← h2]
  · intro s rest h1 h2
    simp [symNext, symFetchLoop, symFetchGo, h1, h2]
  · intro m h1 h2
    simp [mp3Next, mpNextPacket, h1, h2]
    rw [← h1]
  · intro m rest h1 h2
    simp [mp3Next, mpNextPacket, h1, h2]

/-- Witness for `c5_symphonia_skip_and_exhaust` at concrete adapters. -/
theorem c5_symphonia_skip_and_exhaust_witness :
    (symC5.current_frame_offset = symC5.buffer.length ∧
     symNext symC5
       = symNext { symC5 with format := { symC5.format with remaining := [MpEvent.pkt (some [4])] } }) ∧
    (symNext symC5end = POut.ok (Option.none, symC5end)) ∧
    (symNext symC5err
       = POut.ok (Option.none, { symC5err with format := { symC5err.format with remaining := [] } })) ∧
    (mp3Next mp3C5end = POut.ok (Option.none, mp3C5end)) ∧
    (mp3Next mp3C5bad = POut.panic) :=
  ⟨⟨rfl, c5_symphonia_skip_and_exhaust.1 symC5 [MpEvent.pkt (some [4])] rfl rfl⟩,
    c5_symphonia_skip_and_exhaust.2.1 symC5end rfl rfl,
    c5_symphonia_skip_and_exhaust.2.2.1 symC5err [] rfl rfl,
    c5_symphonia_skip_and_exhaust.2.2.2.1 mp3C5end rfl rfl,
    c5_symphonia_skip_and_exhaust.2.2.2.2 mp3C5bad [] rfl rfl⟩

/-- Claim C5 counterexample: the claim, read of the adapter that
`Decoder::new` dispatches compressed formats to (`Mp3Decoder`), states
that a failed decode of a fetched unit is skipped and the next unit
retried; instead `mp3Next` panics on `mp3C5bad` (the `unwrap` at
mp3.rs:112). -/
theorem c5_mp3_decode_failure_panics : mp3Next mp3C5bad = POut.panic := rfl

/-- Claim C6 (amended): after an exhausted pull, a failed loop
reconstruction leaves the `None` state installed and returns `None` for
the wav, flac and vorbis variants on every failure step (rewind failure,
reader reopen failure, constructor rejection) and for the mp3 variant on a
rewind failure; from the `None` state every subsequent pull returns `None`
and the state stays `None` forever.  (A constructor failure on the mp3
rebuild instead panics — refuted by `c6_mp3_reconstruct_panics`.) -/
theorem c6_fail_closed_empty :
    (∀ n : Nat, loopedPulls DecoderImpl.none n
        = POut.ok (List.replicate n Option.none, DecoderImpl.none)) ∧
    (∀ v v' : VorbisState, vorbisNext v = POut.ok (Option.none, v') →
        v'.stream_reader.src.seekBytesZeroOk = false ∨ v'.stream_reader.src.reopenOk = false →
        loopedNext (DecoderImpl.vorbis v) = POut.ok (Option.none, DecoderImpl.none)) ∧
    (∀ m m' : Mp3State, mp3Next m = POut.ok (Option.none, m') →
        m'.probed.src.symSeekTimeOk = false →
        loopedNext (DecoderImpl.mp3 m) = POut.ok (Option.none, DecoderImpl.none)) ∧
    (∀ w w' : WavState, wavNext w = (Option.none, w') →
        w'.inner.ioSeekOk = false ∨ w'.inner.wavAccepts = false →
        loopedNext (DecoderImpl.wav w) = POut.ok (Option.none, DecoderImpl.none)) ∧
    (∀ w w' : FlacState, flacNext w = (Option.none, w') →
        w'.inner.ioSeekOk = false ∨ w'.inner.flacAccepts = false →
        loopedNext (DecoderImpl.flac w) = POut.ok (Option.none, DecoderImpl.none)) := by
  refine ⟨?_, ?_, ?_, ?_, ?_⟩
  · intro n
    induction n with
    | zero => rfl
    | succ n ih =>
        rw [loopedPulls]
        simp [ih, loopedNext, decoderImplNext, List.replicate]
  · intro v v' hex hfail
    rcases hfail with hf | hf
    · simp [loopedNext, decoderImplNext, hex, hf]
    · cases hs : v'.stream_reader.src.seekBytesZeroOk with
      | false => simp [loopedNext, decoderImplNext, hex, hs]
      | true => simp [loopedNext, decoderImplNext, hex, hs, hf]
  · intro m m' hex hf
    simp [loopedNext, decoderImplNext, hex, hf]
  · intro w w' hex hfail
    rcases hfail with hf | hf
    · simp [loopedNext, decoderImplNext, hex, hf]
    · cases hs : w'.inner.ioSeekOk with
      | false => simp [loopedNext, decoderImplNext, hex, hs]
      | true => simp [loopedNext, decoderImplNext, hex, hs, wavNew, hf]
  · intro w w' hex hfail
    rcases hfail with hf | hf
    · simp [loopedNext, decoderImplNext, hex, hf]
    · cases hs : w'.inner.ioSeekOk with
      | false => simp [loopedNext, decoderImplNext, hex, hs]
      | true => simp [loopedNext, decoderImplNext, hex, hs, flacNew, hf]

/-- Witness for `c6_fail_closed_empty` at concrete adapters. -/
theorem c6_fail_closed_empty_witness :
    loopedPulls DecoderImpl.none 2
      = POut.ok (List.replicate 2 Option.none, DecoderImpl.none) ∧
    loopedNext (DecoderImpl.vorbis vorbC6) = POut.ok (Option.none, DecoderImpl.none) ∧
    loopedNext (DecoderImpl.mp3 mp3C6seek) = POut.ok (Option.none, DecoderImpl.none) ∧
    loopedNext (DecoderImpl.wav wavC6) = POut.ok (Option.none, DecoderImpl.none) ∧
    loopedNext (DecoderImpl.flac flacC6) = POut.ok (Option.none, DecoderImpl.none) :=
  ⟨c6_fail_closed_empty.1 2,
    c6_fail_closed_empty.2.1 vorbC6 vorbC6 rfl (Or.inl rfl),
    c6_fail_closed_empty.2.2.1 mp3C6seek mp3C6seek rfl rfl,
    c6_fail_closed_empty.2.2.2.1 wavC6 wavC6 rfl (Or.inr rfl),
    c6_fail_closed_empty.2.2.2.2 flacC6 flacC6 rfl (Or.inr rfl)⟩

/-- Claim C6 counterexample: the claim states that a failed reconstruction
at *any* step settles the looping decoder into `Empty` without panicking.
On the mp3 variant a rewind that succeeds followed by a failing
reconstruction (`Mp3Decoder::new` unwraps its first decode) panics instead
of settling into `Empty`. -/
theorem c6_mp3_reconstruct_panics : loopedNext (DecoderImpl.mp3 mp3C6) = POut.panic := rfl

/-- Claim C10: when a loop reconstruction succeeds but the rebuilt fresh
vorbis decoder yields no first sample, the pull returns `None` while
installing the rebuilt decoder as the Active `vorbis` state — not the
terminal `None` state — and the next pull performs reconstruction again
(second conjunct: the state reproduces itself, staying Active). -/
theorem c10_rebuilt_active_on_empty_stream (v v' v1 v2 : VorbisState)
    (hexh : vorbisNext v = POut.ok (Option.none, v'))
    (hseek : v'.stream_reader.src.seekBytesZeroOk = true)
    (hopen : v'.stream_reader.src.reopenOk = true)
    (hfresh : vorbisNext (freshVorbis v'.stream_reader.src) = POut.ok (Option.none, v1))
    (hexh1 : vorbisNext v1 = POut.ok (Option.none, v2)) :
    loopedNext (DecoderImpl.vorbis v) = POut.ok (Option.none, DecoderImpl.vorbis v1) ∧
    loopedNext (DecoderImpl.vorbis v1) = POut.ok (Option.none, DecoderImpl.vorbis v1) := by
  have hfresh' : vorbisNext (fromStreamReader (mkOggReader v'.stream_reader.src))
      = POut.ok (Option.none, v1) := by simpa [freshVorbis] using hfresh
  have hsrc1 : v1.stream_reader.src = v'.stream_reader.src := by
    rw [vorbisNext_src _ _ _ hfresh]
    simpa [freshVorbis, mkOggReader] using fromStreamReader_src (mkOggReader v'.stream_reader.src)
  have hsrc2 : v2.stream_reader.src = v'.stream_reader.src := by
    rw [vorbisNext_src _ _ _ hexh1, hsrc1]
  constructor
  · simp [loopedNext, decoderImplNext, hexh, hseek, hopen, hfresh']
  · simp [loopedNext, decoderImplNext, hexh1, hsrc2, hseek, hopen, hfresh']

/-- Witness for `c10_rebuilt_active_on_empty_stream` over `rdrC10`. -/
theorem c10_rebuilt_active_on_empty_stream_witness :
    (vorbisNext (freshVorbis rdrC10) = POut.ok (Option.none, freshVorbis rdrC10) ∧
     (freshVorbis rdrC10).stream_reader.src.seekBytesZeroOk = true ∧
     (freshVorbis rdrC10).stream_reader.src.reopenOk = true) ∧
    loopedNext (DecoderImpl.vorbis (freshVorbis rdrC10))
      = POut.ok (Option.none, DecoderImpl.vorbis (freshVorbis rdrC10)) :=
  ⟨⟨rfl, rfl, rfl⟩,
    (c10_rebuilt_active_on_empty_stream (freshVorbis rdrC10) (freshVorbis rdrC10)
      (freshVorbis rdrC10) (freshVorbis rdrC10) rfl rfl rfl rfl rfl).1⟩

/-- Claim C4: for a valid vorbis-in-ogg stream — first decoded packet
empty by convention, later packets free of decode errors — the priming in
`from_stream_reader` leaves exactly the second packet staged, and the
first sample returned by the freshly constructed adapter is the first
sample of that second decoded packet. -/
theorem c4_vorbis_priming (data : Rdr) (p2 : List Int) (s : Int) (rest : List PacketRes)
    (hpk : data.oggPackets = PacketRes.ok [] :: PacketRes.ok p2 :: rest)
    (hvalid : ∀ q ∈ rest, q ≠ PacketRes.err)
    (hs : p2.head? = some s) :
    (freshVorbis data).current_data = p2 ∧
    vorbisFirst (freshVorbis data) = POut.ok (some s) := by
  have hfv : freshVorbis data
      = { stream_reader := { src := data, remaining := rest }, current_data := p2 } := by
    simp [freshVorbis, mkOggReader, fromStreamReader, readDecPacketItl, hpk]
  refine ⟨by rw [hfv], ?_⟩
  rw [hfv]
  cases hp2 : p2 with
  | nil => rw [hp2] at hs; cases hs
  | cons a t =>
      rw [hp2] at hs
      simp only [List.head?] at hs
      cases hs
      cases ht : t with
      | nil =>
          obtain ⟨v', hv'⟩ := getNextGo_total data [] rest hvalid
          simp [vorbisFirst, vorbisNext, getNext, hv']
      | cons b t' =>
          simp [vorbisFirst, vorbisNext]

/-- Witness for `c4_vorbis_priming` over `rdrC4`, every hypothesis
discharged. -/
theorem c4_vorbis_priming_witness :
    (freshVorbis rdrC4).current_data = [7, 8] ∧
    vorbisFirst (freshVorbis rdrC4) = POut.ok (some 7) :=
  c4_vorbis_priming rdrC4 [7, 8] 7 [PacketRes.ok []] rfl (by decide) rfl

/-- Claim C7 (amended, to streams with at least one sample): for a looping
decoder over a vorbis stream whose fresh decode yields exactly the `N`
samples `out` (`N`-th state `vN`, the next plain pull reporting
end-of-sequence) and whose rewind and reopen succeed, the `(N+1)`-th pull
does not return end-of-sequence: it returns exactly the sample `s0` that
pull #1 of a fresh decode of the same stream from position zero returns.
(The zero-sample case `N = 0` is refuted by `c7_zero_sample_loop`.) -/
theorem c7_loop_restart (data : Rdr) (N : Nat) (out : List (Option Int))
    (vN vE v1 : VorbisState) (s0 : Int)
    (hseek : data.seekBytesZeroOk = true) (hopen : data.reopenOk = true)
    (hrun : vorbisPulls (freshVorbis data) N = POut.ok (out, vN))
    (hall : ∀ o ∈ out, o ≠ Option.none)
    (hexh : vorbisNext vN = POut.ok (Option.none, vE))
    (hfirst : vorbisNext (freshVorbis data) = POut.ok (some s0, v1)) :
    loopedPulls (DecoderImpl.vorbis (freshVorbis data)) (N + 1)
      = POut.ok (out ++ [some s0], DecoderImpl.vorbis v1) := by
  have hA := looped_agrees_vorbis N (freshVorbis data) out vN hrun hall
  have hsrcN : vN.stream_reader.src = data := by
    rw [vorbisPulls_src N (freshVorbis data) out vN hrun]
    simpa [freshVorbis, mkOggReader] using fromStreamReader_src (mkOggReader data)
  have hsrcE : vE.stream_reader.src = data := by
    rw [vorbisNext_src vN _ vE hexh, hsrcN]
  have hstep : loopedNext (DecoderImpl.vorbis vN) = POut.ok (some s0, DecoderImpl.vorbis v1) := by
    have hfresh' : vorbisNext (fromStreamReader (mkOggReader data))
        = POut.ok (some s0, v1) := by
      simpa [freshVorbis] using hfirst
    simp [loopedNext, decoderImplNext, hexh, hsrcE, hseek, hopen, hfresh']
  exact loopedPulls_snoc N _ _ _ hA _ _ hstep

/-- Witness for `c7_loop_restart` over the one-sample stream `rdrC7w`,
every hypothesis discharged: pulled past its single sample, the looping
decoder restarts and pull 2 returns the same sample 5 as pull 1 of a fresh
decode. -/
theorem c7_loop_restart_witness :
    loopedPulls (DecoderImpl.vorbis (freshVorbis rdrC7w)) (1 + 1)
      = POut.ok ([some 5] ++ [some 5], DecoderImpl.vorbis vC7w) :=
  c7_loop_restart rdrC7w 1 [some 5] vC7w vC7w vC7w 5 rfl rfl rfl (by decide) rfl rfl

/-- Claim C7 counterexample: over the zero-sample stream `rdrC7`
(`N = 0`), the `(N+1)`-th = first looped pull *does* return
end-of-sequence even though the rewind succeeds and the decoder of the
same kind is successfully rebuilt — the fresh decoder simply has no first
sample to give. -/
theorem c7_zero_sample_loop :
    vorbisNext (freshVorbis rdrC7) = POut.ok (Option.none, freshVorbis rdrC7) ∧
    rdrC7.seekBytesZeroOk = true ∧ rdrC7.reopenOk = true ∧
    loopedPulls (DecoderImpl.vorbis (freshVorbis rdrC7)) (0 + 1)
      = POut.ok ([Option.none], DecoderImpl.vorbis (freshVorbis rdrC7)) :=
  ⟨rfl, rfl, rfl, rfl⟩

end Rodio
